import Mathlib

/-!
# My-Lil-Cat: the `Body` class of `src/body.js`

A shallow embedding of the body state machine (construction, force application,
gravity, the per-tick `update`, shape validation and the boundary bounce `edges`)
and the properties proved about it.

Every method of the class becomes a function from the state of the body before the
call to a pair: the value the call returns and the state of the body after it.

Finite numbers are kept exact. The statements are therefore written with the
expressions the code evaluates, in the order in which it evaluates them, and use no law
of exact arithmetic that rounded arithmetic lacks (associativity of `+`, products that
never underflow).
-/

namespace MyLilCat

/-! ## Numbers -/

/-- A JavaScript number. Finite values are kept as exact rationals (rounding and the
sign of zero are left out); the two infinities and NaN are kept, because the code
produces NaN from `undefined` operands. -/
inductive JSNum where
  | fin (q : ℚ)
  | posInf
  | negInf
  | nan
  deriving DecidableEq

namespace JSNum

/-- The operator `a + b` on numbers. -/
def add : JSNum → JSNum → JSNum
  | fin a, fin b => fin (a + b)
  | fin _, posInf => posInf
  | fin _, negInf => negInf
  | posInf, fin _ => posInf
  | posInf, posInf => posInf
  | posInf, negInf => nan
  | negInf, fin _ => negInf
  | negInf, negInf => negInf
  | negInf, posInf => nan
  | nan, _ => nan
  | _, nan => nan

/-- The unary operator `-a`. -/
def neg : JSNum → JSNum
  | fin a => fin (-a)
  | posInf => negInf
  | negInf => posInf
  | nan => nan

/-- The operator `a - b`. -/
def sub (a b : JSNum) : JSNum := add a (neg b)

/-- The product of `+Infinity` with the finite value `q`. -/
def infTimes (q : ℚ) : JSNum :=
  if 0 < q then posInf else if q < 0 then negInf else nan

/-- The operator `a * b`. -/
def mul : JSNum → JSNum → JSNum
  | fin a, fin b => fin (a * b)
  | fin a, posInf => infTimes a
  | fin a, negInf => neg (infTimes a)
  | posInf, fin b => infTimes b
  | negInf, fin b => neg (infTimes b)
  | posInf, posInf => posInf
  | posInf, negInf => negInf
  | negInf, posInf => negInf
  | negInf, negInf => posInf
  | nan, _ => nan
  | _, nan => nan

/-- The operator `a / b`. A finite value over zero is an infinity of the sign of the
numerator (zero is taken as the positive zero), and `0 / 0` is NaN. -/
def div : JSNum → JSNum → JSNum
  | fin a, fin b => if b = 0 then infTimes a else fin (a / b)
  | fin _, posInf => fin 0
  | fin _, negInf => fin 0
  | posInf, fin b => if b < 0 then negInf else posInf
  | negInf, fin b => if b < 0 then posInf else negInf
  | posInf, posInf => nan
  | posInf, negInf => nan
  | negInf, posInf => nan
  | negInf, negInf => nan
  | nan, _ => nan
  | _, nan => nan

/-- The comparison `a < b`; every comparison with NaN is false. -/
def lt : JSNum → JSNum → Bool
  | fin a, fin b => decide (a < b)
  | fin _, posInf => true
  | negInf, fin _ => true
  | negInf, posInf => true
  | _, _ => false

/-- The comparison `a > b`, which JavaScript evaluates as `b < a`. -/
def gt (a b : JSNum) : Bool := lt b a

/-- The comparison `a <= b`; false when either side is NaN. -/
def le : JSNum → JSNum → Bool
  | fin a, fin b => decide (a ≤ b)
  | fin _, posInf => true
  | negInf, fin _ => true
  | negInf, posInf => true
  | posInf, posInf => true
  | negInf, negInf => true
  | _, _ => false

/-- Truthiness of a number: everything but `0` and NaN. -/
def truthy : JSNum → Bool
  | fin q => decide (q ≠ 0)
  | posInf => true
  | negInf => true
  | nan => false

end JSNum

/-- A value that is either `undefined` (`none`) or a number, read as a number by an
arithmetic operator: `undefined` converts to NaN. -/
def toNumber : Option JSNum → JSNum
  | some n => n
  | none => JSNum.nan

/-- The expression `v || d` for `v` either `undefined` or a number and `d` a number:
`v` when it is truthy, `d` otherwise. -/
def orNum (v : Option JSNum) (d : JSNum) : JSNum :=
  match v with
  | some n => if n.truthy then n else d
  | none => d

/-! ## Vectors -/

/-- Modelled from the spec: the vector class (`require('./vector')`) is not among the
sources. It is a pair of numbers `x`, `y` stored as given to `new Vector(x, y)`; a
component given as `undefined` is read as a number (NaN) by the first arithmetic
operation on it, so it is stored here already converted. -/
structure Vector where
  x : JSNum
  y : JSNum
  deriving DecidableEq

namespace Vector

/-- Modelled from the spec: `add(other)` of the missing vector class "mutates self in
place, returns self"; the sum is taken component by component. -/
def add (v other : Vector) : Vector :=
  ⟨JSNum.add v.x other.x, JSNum.add v.y other.y⟩

/-- Modelled from the spec: `mag(value)` of the missing vector class "sets magnitude to
value in place". The body calls it only as `acc.mag(0)`; the one vector of magnitude
zero is `(0, 0)`, so that call is what is modelled. -/
def magZero (_v : Vector) : Vector :=
  ⟨JSNum.fin 0, JSNum.fin 0⟩

/-- Modelled from the spec: the derived magnitude `mod` of the missing vector class is
`sqrt(x² + y²)`; this is its square, which is zero exactly when `mod` is. -/
def modSq (v : Vector) : JSNum :=
  JSNum.add (JSNum.mul v.x v.x) (JSNum.mul v.y v.y)

end Vector

/-! ## Values held in the `shape` field -/

/-- An element of an array passed as a shape. -/
inductive JSElem where
  | undefined
  | number (n : JSNum)
  | string (s : String)
  | point (x y : JSNum)
  deriving DecidableEq

/-- The values `setShape` and the `shape` option are called with: `undefined`, a number,
a string, an object with `x` and `y` (a vertex), or an array. -/
inductive JSValue where
  | undefined
  | number (n : JSNum)
  | string (s : String)
  | point (x y : JSNum)
  | array (items : List JSElem)
  deriving DecidableEq

namespace JSValue

/-- Truthiness of a value: `undefined`, `0`, NaN and the empty string are falsy. -/
def truthy : JSValue → Bool
  | undefined => false
  | number n => n.truthy
  | string s => decide (s ≠ "")
  | point _ _ => true
  | array _ => true

end JSValue

/-! ## The body -/

/-- The fields of a `Body` instance. `gravity` is `none` while the field is
`undefined`, that is until `setG` assigns it. -/
structure Body where
  pos : Vector
  vel : Vector
  acc : Vector
  cf : Vector
  gravity : Option JSNum
  shape : JSValue
  mass : JSNum
  w : JSNum
  h : JSNum
  deriving DecidableEq

/-- The options object of the constructor; a field that is absent is `none`. -/
structure Opts where
  pos : Option Vector
  vel : Option Vector
  acc : Option Vector
  shape : Option JSValue
  mass : Option JSNum
  w : Option JSNum
  h : Option JSNum

/-- The expression `opts.shape || 'RECT'`. -/
def orShape (v : Option JSValue) : JSValue :=
  match v with
  | some s => if s.truthy then s else JSValue.string "RECT"
  | none => JSValue.string "RECT"

/-- The statement `if (opts.pos) this.pos = new Vector(opts.pos.x, opts.pos.y) else
this.pos = new Vector(0, 0)` (and the same for `vel` and `acc`). -/
def optVector (v : Option Vector) : Vector :=
  match v with
  | some p => ⟨p.x, p.y⟩
  | none => ⟨JSNum.fin 0, JSNum.fin 0⟩

/-- The constructor `new Body(opts)`, with `opts` being `none` when no argument is
given. The fields are assigned from the options or their defaults, then
`cf = (vel.x / (mass * gravity), vel.y / (mass * gravity))` is computed; `gravity` is
never assigned by the constructor, so it is read there as `undefined`. -/
def Body.constructor (opts : Option Opts) : Body :=
  let gravity : Option JSNum := none
  let pos := match opts with
    | some o => optVector o.pos
    | none => ⟨JSNum.fin 0, JSNum.fin 0⟩
  let vel := match opts with
    | some o => optVector o.vel
    | none => ⟨JSNum.fin 0, JSNum.fin 0⟩
  let acc := match opts with
    | some o => optVector o.acc
    | none => ⟨JSNum.fin 0, JSNum.fin 0⟩
  let shape := match opts with
    | some o => orShape o.shape
    | none => JSValue.string "RECT"
  let mass := match opts with
    | some o => orNum o.mass (JSNum.fin 10)
    | none => JSNum.fin 10
  let w := match opts with
    | some o => orNum o.w (JSNum.fin 100)
    | none => JSNum.fin 100
  let h := match opts with
    | some o => orNum o.h (JSNum.fin 100)
    | none => JSNum.fin 100
  { pos := pos
    vel := vel
    acc := acc
    cf := ⟨JSNum.div vel.x (JSNum.mul mass (toNumber gravity)),
           JSNum.div vel.y (JSNum.mul mass (toNumber gravity))⟩
    gravity := gravity
    shape := shape
    mass := mass
    w := w
    h := h }

/-- The method `applyForce(v)`: `return this.acc.add(v)`. The vector returned is the
acceleration of the body itself. -/
def applyForce (b : Body) (v : Vector) : Vector × Body :=
  let acc := b.acc.add v
  (acc, { b with acc := acc })

/-- The method `applyG(mag)`: `return this.applyForce(new Vector(0, this.gravity))`.
The parameter is not read. -/
def applyG (b : Body) (_mag : JSNum) : Vector × Body :=
  applyForce b ⟨JSNum.fin 0, toNumber b.gravity⟩

/-- The method `setG(mag)`: `return this.gravity = mag || 1`; `mag` is `none` when the
argument is left out. -/
def setG (b : Body) (mag : Option JSNum) : JSNum × Body :=
  let g := orNum mag (JSNum.fin 1)
  (g, { b with gravity := some g })

/-- The method `update()`: gravity is applied, the acceleration is added to the
velocity, the new velocity to the position, the acceleration is set to magnitude 0, and
the body itself is returned. -/
def update (b : Body) : Body × Body :=
  let b1 := (applyG b (orNum b.gravity (JSNum.fin 0))).2
  let b2 := { b1 with vel := b1.vel.add b1.acc }
  let b3 := { b2 with pos := b2.pos.add b2.vel }
  let b4 := { b3 with acc := b3.acc.magZero }
  (b4, b4)

namespace JSValue

/-- The test `typeof shape == 'string'`. -/
def isString : JSValue → Bool
  | string _ => true
  | _ => false

/-- The test `shape instanceof Array`. -/
def isArray : JSValue → Bool
  | array _ => true
  | _ => false

/-- The property `shape.length` of an array, as a natural number. -/
def length : JSValue → Nat
  | array items => items.length
  | _ => 0

end JSValue

/-- The method `setShape(shape)`: a string or an array of length at least 3 is stored,
anything else throws `Error('Invalid shape format')`. The first component is the
outcome of the call (the method returns nothing), the second the body after it. -/
def setShape (b : Body) (shape : JSValue) : Except String Unit × Body :=
  if shape.isString then (Except.ok (), { b with shape := shape })
  else if shape.isArray && decide (shape.length ≥ 3) then (Except.ok (), { b with shape := shape })
  else (Except.error "Invalid shape format", b)

/-- The factor `-1 + (cf / 10)` by which `edges` multiplies the velocity on an axis. -/
def bounce (cf : JSNum) : JSNum :=
  JSNum.add (JSNum.fin (-1)) (JSNum.div cf (JSNum.fin 10))

/-- The method `edges(constraints)`. The flag `out` is computed from the position
before any clamping; then the x axis and the y axis are clamped and bounced in turn. -/
def edges (b : Body) (constraints : Vector) : Bool × Body :=
  let out := b.pos.x.gt constraints.x || b.pos.y.gt constraints.y ||
    b.pos.x.lt (JSNum.fin 0) || b.pos.y.lt (JSNum.fin 0)
  let b1 :=
    if b.pos.x.gt constraints.x then
      { b with pos := ⟨constraints.x, b.pos.y⟩
               vel := ⟨JSNum.mul b.vel.x (bounce b.cf.x), b.vel.y⟩ }
    else if b.pos.x.lt (JSNum.fin 0) then
      { b with pos := ⟨JSNum.fin 0, b.pos.y⟩
               vel := ⟨JSNum.mul b.vel.x (bounce b.cf.x), b.vel.y⟩ }
    else b
  let b2 :=
    if b1.pos.y.gt constraints.y then
      { b1 with pos := ⟨b1.pos.x, constraints.y⟩
                vel := ⟨b1.vel.x, JSNum.mul b1.vel.y (bounce b1.cf.y)⟩ }
    else if b1.pos.y.lt (JSNum.fin 0) then
      { b1 with pos := ⟨b1.pos.x, JSNum.fin 0⟩
                vel := ⟨b1.vel.x, JSNum.mul b1.vel.y (bounce b1.cf.y)⟩ }
    else b1
  (out, b2)

/-- Following the spec's words ("an ordered sequence of ≥3 vertices"): the value is an
array, each of its elements is a vertex, and there are at least 3 of them. -/
def isVertexSeq : JSValue → Bool
  | JSValue.array items =>
    items.all (fun e => match e with
      | JSElem.point _ _ => true
      | _ => false) && decide (items.length ≥ 3)
  | _ => false

/-- Following the spec's words for `setG` ("m when m is provided and non-zero, 1
otherwise (absent or 0)"): the gravity the claim expects after `setG(m)`. -/
def setGExpected (m : Option JSNum) : JSNum :=
  match m with
  | some v => if v = JSNum.fin 0 then JSNum.fin 1 else v
  | none => JSNum.fin 1

/-! ## Distance and collision -/

namespace JSNum

/-- The test `Number.isFinite(a)`: neither an infinity nor NaN. -/
def isFinite : JSNum → Bool
  | fin _ => true
  | _ => false

end JSNum

/-- The number `Math.sqrt(sq)`, kept exact by storing the number under the root. -/
structure Root where
  sq : JSNum
  deriving DecidableEq

/-- The comparison `r == 0` of a square root with zero. The root of `sq` is `0` exactly
when `sq` is `0`: the root of a positive number is positive, the root of `Infinity` is
`Infinity`, and the root of NaN or of a negative number is NaN. -/
def Root.isZero (r : Root) : Bool :=
  decide (r.sq = JSNum.fin 0)

/-- Modelled from the spec: the derived magnitude `mod` of the missing vector class,
`sqrt(x² + y²)`. -/
def Vector.mod (v : Vector) : Root :=
  ⟨v.modSq⟩

/-- The method `dist(obj)`:
`return new Vector(this.pos.x - obj.pos.x, this.pos.y - obj.pos.y).mod`. With the value
come the body and `obj` as they are after the call; the method only reads them. -/
def dist (b obj : Body) : Root × Body × Body :=
  ((Vector.mk (JSNum.sub b.pos.x obj.pos.x) (JSNum.sub b.pos.y obj.pos.y)).mod, b, obj)

/-- The method `collides(obj)`: `return this.dist(obj) == 0`. -/
def collides (b obj : Body) : Bool × Body × Body :=
  let r := dist b obj
  (r.1.isZero, r.2.1, r.2.2)

/-! ## Sequences of calls -/

/-- A call of one of the methods of a body, with its arguments. -/
inductive Op where
  | applyForce (v : Vector)
  | applyG (mag : JSNum)
  | setG (mag : Option JSNum)
  | setShape (shape : JSValue)
  | update
  | dist (obj : Body)
  | collides (obj : Body)
  | edges (constraints : Vector)

/-- The body after the call `op` on the body `b`. -/
def runOp (op : Op) (b : Body) : Body :=
  match op with
  | Op.applyForce v => (applyForce b v).2
  | Op.applyG mag => (applyG b mag).2
  | Op.setG mag => (setG b mag).2
  | Op.setShape shape => (setShape b shape).2
  | Op.update => (update b).2
  | Op.dist obj => (dist b obj).2.1
  | Op.collides obj => (collides b obj).2.1
  | Op.edges constraints => (edges b constraints).2

/-- The body after the calls `ops`, made one after the other on the body `b`. -/
def runOps (ops : List Op) (b : Body) : Body :=
  ops.foldl (fun s op => runOp op s) b

/-- The body after `n` consecutive calls of `update()`. -/
def updateN (n : Nat) (b : Body) : Body :=
  match n with
  | 0 => b
  | k + 1 => (update (updateN k b)).2

/-! ## The integration scheme -/

/-- Following the spec's words ("Euler (semi-implicit) integration": the velocity is
updated first, the position then from the new velocity), under a constant gravity `g`
and no other force: one step on the pair (position, velocity). -/
def eulerStep (g : JSNum) (s : Vector × Vector) : Vector × Vector :=
  let vel := s.2.add ⟨JSNum.fin 0, g⟩
  (s.1.add vel, vel)

/-- Following the claim's words: the closed form `vel0 + (0, n*g)` of the velocity after
`n` ticks, with the product of the numbers `n` and `g`. -/
def closedFormVel (vel0 : Vector) (g : JSNum) (n : Nat) : Vector :=
  vel0.add ⟨JSNum.fin 0, JSNum.mul (JSNum.fin n) g⟩

/-- Following the claim's words: the closed form `pos0 + n*vel0 + (0, g*n*(n+1)/2)` of
the position after `n` ticks. -/
def closedFormPos (pos0 vel0 : Vector) (g : JSNum) (n : Nat) : Vector :=
  (pos0.add ⟨JSNum.mul (JSNum.fin n) vel0.x, JSNum.mul (JSNum.fin n) vel0.y⟩).add
    ⟨JSNum.fin 0,
     JSNum.div (JSNum.mul (JSNum.mul g (JSNum.fin n)) (JSNum.fin (n + 1))) (JSNum.fin 2)⟩

/-! ## Sample bodies -/

/-- The body `new Body({pos: {x: 1, y: 2}, vel: {x: 3, y: 4}, acc: {x: 5, y: 6}})` after
`setG(7)`. -/
def fallingBody : Body :=
  (setG (Body.constructor (some
    { pos := some ⟨JSNum.fin 1, JSNum.fin 2⟩
      vel := some ⟨JSNum.fin 3, JSNum.fin 4⟩
      acc := some ⟨JSNum.fin 5, JSNum.fin 6⟩
      shape := none
      mass := none
      w := none
      h := none })) (some (JSNum.fin 7))).2

/-- The body `new Body({acc: {x: 5, y: 0}})` after `setG()`: velocity `(0, 0)`,
acceleration `(5, 0)`, gravity `1`. -/
def pushedBody : Body :=
  (setG (Body.constructor (some
    { pos := none
      vel := none
      acc := some ⟨JSNum.fin 5, JSNum.fin 0⟩
      shape := none
      mass := none
      w := none
      h := none })) none).2

/-- The body of the bounce scenario: pos (150, 50), vel (10, 0), cf (0.2, 0), the other
fields at their defaults. -/
def bouncingBody : Body :=
  { pos := ⟨JSNum.fin 150, JSNum.fin 50⟩
    vel := ⟨JSNum.fin 10, JSNum.fin 0⟩
    acc := ⟨JSNum.fin 0, JSNum.fin 0⟩
    cf := ⟨JSNum.fin (1 / 5), JSNum.fin 0⟩
    gravity := none
    shape := JSValue.string "RECT"
    mass := JSNum.fin 10
    w := JSNum.fin 100
    h := JSNum.fin 100 }

/-- A body at pos (5, 5) with vel (1, 0) and cf (0, 0), the other fields at their
defaults. -/
def strayBody : Body :=
  { pos := ⟨JSNum.fin 5, JSNum.fin 5⟩
    vel := ⟨JSNum.fin 1, JSNum.fin 0⟩
    acc := ⟨JSNum.fin 0, JSNum.fin 0⟩
    cf := ⟨JSNum.fin 0, JSNum.fin 0⟩
    gravity := none
    shape := JSValue.string "RECT"
    mass := JSNum.fin 10
    w := JSNum.fin 100
    h := JSNum.fin 100 }

/-- The body `new Body({pos: {x: 5, y: 5}})` after one `update()` with no gravity set:
its position is (5, NaN). -/
def driftedBody : Body :=
  (update (Body.constructor (some
    { pos := some ⟨JSNum.fin 5, JSNum.fin 5⟩
      vel := none
      acc := none
      shape := none
      mass := none
      w := none
      h := none }))).2

/-- The array `[1, 2, 3]`. -/
def numberTriple : JSValue :=
  JSValue.array [JSElem.number (JSNum.fin 1), JSElem.number (JSNum.fin 2),
    JSElem.number (JSNum.fin 3)]

/-- The array `[{x:0,y:0},{x:1,y:0},{x:0,y:1}]`. -/
def triangle : JSValue :=
  JSValue.array [JSElem.point (JSNum.fin 0) (JSNum.fin 0),
    JSElem.point (JSNum.fin 1) (JSNum.fin 0), JSElem.point (JSNum.fin 0) (JSNum.fin 1)]

/-- The array `[{x:0,y:0},{x:1,y:0}]`. -/
def twoVertices : JSValue :=
  JSValue.array [JSElem.point (JSNum.fin 0) (JSNum.fin 0),
    JSElem.point (JSNum.fin 1) (JSNum.fin 0)]

/-- The body `new Body({pos: {x: Infinity, y: 0}})`. -/
def farBody : Body :=
  Body.constructor (some
    { pos := some ⟨JSNum.posInf, JSNum.fin 0⟩
      vel := none
      acc := none
      shape := none
      mass := none
      w := none
      h := none })

/-- The body `new Body({pos: {x: Infinity, y: 0}, mass: 5})`. -/
def farHeavyBody : Body :=
  Body.constructor (some
    { pos := some ⟨JSNum.posInf, JSNum.fin 0⟩
      vel := none
      acc := none
      shape := none
      mass := some (JSNum.fin 5)
      w := none
      h := none })

/-- The options `{shape: "", mass: 0, w: 0, h: 0}`. -/
def falsyOpts : Opts :=
  { pos := none
    vel := none
    acc := none
    shape := some (JSValue.string "")
    mass := some (JSNum.fin 0)
    w := some (JSNum.fin 0)
    h := some (JSNum.fin 0) }

/-- The options `{pos: {x: 1, y: 2}, mass: 5}`. -/
def someOpts : Opts :=
  { pos := some ⟨JSNum.fin 1, JSNum.fin 2⟩
    vel := none
    acc := none
    shape := none
    mass := some (JSNum.fin 5)
    w := none
    h := none }

/-- The body `new Body({pos: {x: 1, y: 2}, vel: {x: 3, y: 4}})` after `setG(7)`. -/
def thrownBody : Body :=
  (setG (Body.constructor (some
    { pos := some ⟨JSNum.fin 1, JSNum.fin 2⟩
      vel := some ⟨JSNum.fin 3, JSNum.fin 4⟩
      acc := none
      shape := none
      mass := none
      w := none
      h := none })) (some (JSNum.fin 7))).2

/-- A body out of bounds on both axes of the rectangle (100, 200): pos (150, -5),
vel (10, 4), cf (0.2, 0), the other fields at their defaults. -/
def cornerBody : Body :=
  { pos := ⟨JSNum.fin 150, JSNum.fin (-5)⟩
    vel := ⟨JSNum.fin 10, JSNum.fin 4⟩
    acc := ⟨JSNum.fin 0, JSNum.fin 0⟩
    cf := ⟨JSNum.fin (1 / 5), JSNum.fin 0⟩
    gravity := none
    shape := JSValue.string "RECT"
    mass := JSNum.fin 10
    w := JSNum.fin 100
    h := JSNum.fin 100 }

/-- A body on the boundary of the rectangle (100, 200): pos (100, 0), vel (10, 4), the
other fields at their defaults. -/
def borderBody : Body :=
  { pos := ⟨JSNum.fin 100, JSNum.fin 0⟩
    vel := ⟨JSNum.fin 10, JSNum.fin 4⟩
    acc := ⟨JSNum.fin 0, JSNum.fin 0⟩
    cf := ⟨JSNum.fin (1 / 5), JSNum.fin 0⟩
    gravity := none
    shape := JSValue.string "RECT"
    mass := JSNum.fin 10
    w := JSNum.fin 100
    h := JSNum.fin 100 }

/-- The body `new Body()` after `setG(Infinity)`: pos, vel and acc (0, 0), gravity
`Infinity`. -/
def weightyBody : Body :=
  (setG (Body.constructor none) (some JSNum.posInf)).2

/-! ## Arithmetic facts used below -/

theorem JSNum.plus_zero (a : JSNum) : JSNum.add a (JSNum.fin 0) = a := by
  cases a <;> simp [JSNum.add]

theorem JSNum.zero_plus (a : JSNum) : JSNum.add (JSNum.fin 0) a = a := by
  cases a <;> simp [JSNum.add]

theorem JSNum.lt_self (a : JSNum) : JSNum.lt a a = false := by
  cases a <;> simp [JSNum.lt]

/-! ## Facts about `edges` used below -/

theorem edges_pos_x (b : Body) (c : Vector) :
    (edges b c).2.pos.x =
      if b.pos.x.gt c.x then c.x else if b.pos.x.lt (JSNum.fin 0) then JSNum.fin 0
      else b.pos.x := by
  unfold edges
  simp only []
  split_ifs <;> simp_all

theorem edges_pos_y (b : Body) (c : Vector) :
    (edges b c).2.pos.y =
      if b.pos.y.gt c.y then c.y else if b.pos.y.lt (JSNum.fin 0) then JSNum.fin 0
      else b.pos.y := by
  unfold edges
  simp only []
  split_ifs <;> simp_all

theorem edges_in_bounds (b : Body) (c : Vector)
    (h1 : b.pos.x.gt c.x = false) (h2 : b.pos.x.lt (JSNum.fin 0) = false)
    (h3 : b.pos.y.gt c.y = false) (h4 : b.pos.y.lt (JSNum.fin 0) = false) :
    edges b c = (false, b) := by
  simp [edges, h1, h2, h3, h4]

theorem JSNum.clamp_bounds (a c : JSNum) (ha : a ≠ JSNum.nan)
    (hc : JSNum.le (JSNum.fin 0) c = true) :
    JSNum.le (JSNum.fin 0)
        (if a.gt c then c else if a.lt (JSNum.fin 0) then JSNum.fin 0 else a) = true ∧
      JSNum.le (if a.gt c then c else if a.lt (JSNum.fin 0) then JSNum.fin 0 else a) c
        = true := by
  cases a <;> cases c <;> simp_all [JSNum.le, JSNum.lt, JSNum.gt] <;>
    split_ifs <;> simp_all [JSNum.le]

/-! ## Facts about the other methods used below -/

theorem JSNum.mul_nan (a : JSNum) : JSNum.mul a JSNum.nan = JSNum.nan := by
  cases a <;> rfl

theorem JSNum.div_nan (a : JSNum) : JSNum.div a JSNum.nan = JSNum.nan := by
  cases a <;> rfl

theorem runOp_cf (op : Op) (b : Body) : (runOp op b).cf = b.cf := by
  cases op with
  | setShape shape =>
    simp only [runOp, setShape]
    split_ifs <;> rfl
  | edges constraints =>
    simp only [runOp, edges]
    split_ifs <;> rfl
  | _ => rfl

theorem runOps_cf (ops : List Op) (b : Body) : (runOps ops b).cf = b.cf := by
  induction ops generalizing b with
  | nil => rfl
  | cons op rest ih =>
    have h : runOps (op :: rest) b = runOps rest (runOp op b) := rfl
    rw [h, ih, runOp_cf]

theorem JSNum.sub_self_finite (a : JSNum) (h : a.isFinite = true) :
    JSNum.sub a a = JSNum.fin 0 := by
  cases a <;> simp_all [JSNum.isFinite, JSNum.sub, JSNum.neg, JSNum.add]

theorem dist_same_point (a : Body) (hx : a.pos.x.isFinite = true)
    (hy : a.pos.y.isFinite = true) : (dist a a).1 = ⟨JSNum.fin 0⟩ := by
  simp [dist, Vector.mod, Vector.modSq, JSNum.sub_self_finite, hx, hy, JSNum.mul, JSNum.add]

theorem edges_vel_x (b : Body) (c : Vector) :
    (edges b c).2.vel.x =
      if b.pos.x.gt c.x then JSNum.mul b.vel.x (bounce b.cf.x)
      else if b.pos.x.lt (JSNum.fin 0) then JSNum.mul b.vel.x (bounce b.cf.x)
      else b.vel.x := by
  unfold edges
  simp only []
  split_ifs <;> simp_all

theorem edges_vel_y (b : Body) (c : Vector) :
    (edges b c).2.vel.y =
      if b.pos.y.gt c.y then JSNum.mul b.vel.y (bounce b.cf.y)
      else if b.pos.y.lt (JSNum.fin 0) then JSNum.mul b.vel.y (bounce b.cf.y)
      else b.vel.y := by
  unfold edges
  simp only []
  split_ifs <;> simp_all

theorem JSNum.lt_false_of_le (a b : JSNum) (h : JSNum.le a b = true) :
    JSNum.lt b a = false := by
  cases a <;> cases b <;> simp_all [JSNum.le, JSNum.lt]

theorem update_tick (b : Body) (g : JSNum) (hg : b.gravity = some g)
    (hacc : b.acc = ⟨JSNum.fin 0, JSNum.fin 0⟩) :
    (update b).2.vel = b.vel.add ⟨JSNum.fin 0, g⟩ ∧
    (update b).2.pos = b.pos.add (b.vel.add ⟨JSNum.fin 0, g⟩) ∧
    (update b).2.acc = ⟨JSNum.fin 0, JSNum.fin 0⟩ ∧
    (update b).2.gravity = some g := by
  simp [update, applyG, applyForce, hg, hacc, toNumber, Vector.add, Vector.magZero,
    JSNum.zero_plus]

theorem updateN_acc_gravity (b : Body) (g : JSNum) (hg : b.gravity = some g)
    (hacc : b.acc = ⟨JSNum.fin 0, JSNum.fin 0⟩) (n : Nat) :
    (updateN n b).acc = ⟨JSNum.fin 0, JSNum.fin 0⟩ ∧ (updateN n b).gravity = some g := by
  induction n with
  | zero => exact ⟨hacc, hg⟩
  | succ k ih =>
    have h := update_tick (updateN k b) g ih.2 ih.1
    exact ⟨h.2.2.1, h.2.2.2⟩

/-! ## The tick: `update` -/

/-- C1: for a body whose gravity has been set to `g`, one `update()` adds `(0, g)` to
`acc`, then the resulting `acc` to `vel`, then the resulting `vel` to `pos`; so
`vel_after = vel_before + (acc_before + (0, g))` and
`pos_after = pos_before + vel_after` (the new velocity), the sums being taken in this
order, and the value returned is the body itself. -/
theorem update_semi_implicit (b : Body) (g : JSNum) (hg : b.gravity = some g) :
    (applyG b (orNum b.gravity (JSNum.fin 0))).1 = b.acc.add ⟨JSNum.fin 0, g⟩ ∧
    (applyG b (orNum b.gravity (JSNum.fin 0))).2.acc = b.acc.add ⟨JSNum.fin 0, g⟩ ∧
    (update b).2.vel = b.vel.add (b.acc.add ⟨JSNum.fin 0, g⟩) ∧
    (update b).2.pos = b.pos.add (update b).2.vel ∧
    (update b).1 = (update b).2 := by
  simp [update, applyG, applyForce, hg, toNumber]

/-- Witness for C1: the body built with pos (1, 2), vel (3, 4), acc (5, 6) and then
`setG(7)` has its gravity set to 7, and `update()` acts on it as stated. -/
theorem update_semi_implicit_witness :
    fallingBody.gravity = some (JSNum.fin 7) ∧
    (update fallingBody).2.vel
      = fallingBody.vel.add (fallingBody.acc.add ⟨JSNum.fin 0, JSNum.fin 7⟩) ∧
    (update fallingBody).2.pos = fallingBody.pos.add (update fallingBody).2.vel ∧
    (update fallingBody).1 = (update fallingBody).2 :=
  have h := update_semi_implicit fallingBody (JSNum.fin 7)
    (by simp [fallingBody, setG, orNum, JSNum.truthy])
  ⟨by simp [fallingBody, setG, orNum, JSNum.truthy], h.2.2.1, h.2.2.2.1, h.2.2.2.2⟩

/-- C2, evaluated at `new Body()`: the body has `acc = (0, 0)`, `vel = (0, 0)`,
`pos = (0, 0)` and no gravity set, and `update()` leaves it at `pos = (0, NaN)`: the
force applied by `applyG` is `(0, undefined)`, not `(0, 0)`. -/
theorem update_unset_gravity_moves_pos :
    (Body.constructor none).acc = ⟨JSNum.fin 0, JSNum.fin 0⟩ ∧
    (Body.constructor none).vel = ⟨JSNum.fin 0, JSNum.fin 0⟩ ∧
    (Body.constructor none).pos = ⟨JSNum.fin 0, JSNum.fin 0⟩ ∧
    (Body.constructor none).gravity = none ∧
    orNum (Body.constructor none).gravity (JSNum.fin 0) = JSNum.fin 0 ∧
    (update (Body.constructor none)).2.pos = ⟨JSNum.fin 0, JSNum.nan⟩ ∧
    (update (Body.constructor none)).2.pos ≠ (Body.constructor none).pos := by
  simp [Body.constructor, update, applyG, applyForce, toNumber, orNum, Vector.add,
    Vector.magZero, JSNum.add]

/-- C3 fails as stated: on the body with vel (0, 0), acc (5, 0) and gravity 1,
`applyForce((2, 3))` followed by `update()` leaves vel at (7, 4), not at
`vel_before + f = (2, 3)`. -/
theorem applyForce_update_counterexample :
    pushedBody.vel = ⟨JSNum.fin 0, JSNum.fin 0⟩ ∧
    (update (applyForce pushedBody ⟨JSNum.fin 2, JSNum.fin 3⟩).2).2.vel
      = ⟨JSNum.fin 7, JSNum.fin 4⟩ ∧
    (update (applyForce pushedBody ⟨JSNum.fin 2, JSNum.fin 3⟩).2).2.vel
      ≠ pushedBody.vel.add ⟨JSNum.fin 2, JSNum.fin 3⟩ := by
  simp [pushedBody, Body.constructor, optVector, setG, update, applyG, applyForce,
    toNumber, orNum, Vector.add, JSNum.add]
  norm_num

/-- C3, amended: for a body whose gravity has been set to `g`, `applyForce(f)` followed
immediately by one `update()` gives
`vel_after = vel_before + ((acc_before + f) + (0, g))`, the sums being taken in this
order: `f` is added to the acceleration accumulated before the call, then gravity, and
the result is added to the velocity. -/
theorem applyForce_update_vel (b : Body) (f : Vector) (g : JSNum)
    (hg : b.gravity = some g) :
    (applyForce b f).2.acc = b.acc.add f ∧
    (update (applyForce b f).2).2.vel
      = b.vel.add ((b.acc.add f).add ⟨JSNum.fin 0, g⟩) := by
  simp [update, applyG, applyForce, hg, toNumber]

/-- Witness for the amended C3 on the body with vel (0, 0), acc (5, 0), gravity 1 and the
force (2, 3). -/
theorem applyForce_update_vel_witness :
    pushedBody.gravity = some (JSNum.fin 1) ∧
    (update (applyForce pushedBody ⟨JSNum.fin 2, JSNum.fin 3⟩).2).2.vel
      = pushedBody.vel.add ((pushedBody.acc.add ⟨JSNum.fin 2, JSNum.fin 3⟩).add
          ⟨JSNum.fin 0, JSNum.fin 1⟩) :=
  ⟨by simp [pushedBody, setG, orNum],
   (applyForce_update_vel pushedBody ⟨JSNum.fin 2, JSNum.fin 3⟩ (JSNum.fin 1)
     (by simp [pushedBody, setG, orNum])).2⟩

/-- C4: after `update()` the acceleration is the zero vector, so its magnitude is
exactly 0, whatever the acceleration and the gravity were before the call. -/
theorem update_resets_acc (b : Body) :
    (update b).2.acc = ⟨JSNum.fin 0, JSNum.fin 0⟩ ∧
    (update b).2.acc.modSq = JSNum.fin 0 := by
  simp [update, Vector.magZero, Vector.modSq, JSNum.mul, JSNum.add]

/-! ## The boundary bounce: `edges` -/

/-- C5: on an axis where the position exceeds the constraint, `edges` sets the position
on that axis to the constraint; on an axis where it does not but the position is below
0, to 0; in both cases the velocity on that axis becomes
`old_velocity * (-1 + cf_axis / 10)` and the call returns true. -/
theorem edges_axis (b : Body) (c : Vector) :
    (b.pos.x.gt c.x = true →
      (edges b c).2.pos.x = c.x ∧
      (edges b c).2.vel.x
        = JSNum.mul b.vel.x (JSNum.add (JSNum.fin (-1)) (JSNum.div b.cf.x (JSNum.fin 10))) ∧
      (edges b c).1 = true) ∧
    (b.pos.x.gt c.x = false → b.pos.x.lt (JSNum.fin 0) = true →
      (edges b c).2.pos.x = JSNum.fin 0 ∧
      (edges b c).2.vel.x
        = JSNum.mul b.vel.x (JSNum.add (JSNum.fin (-1)) (JSNum.div b.cf.x (JSNum.fin 10))) ∧
      (edges b c).1 = true) ∧
    (b.pos.y.gt c.y = true →
      (edges b c).2.pos.y = c.y ∧
      (edges b c).2.vel.y
        = JSNum.mul b.vel.y (JSNum.add (JSNum.fin (-1)) (JSNum.div b.cf.y (JSNum.fin 10))) ∧
      (edges b c).1 = true) ∧
    (b.pos.y.gt c.y = false → b.pos.y.lt (JSNum.fin 0) = true →
      (edges b c).2.pos.y = JSNum.fin 0 ∧
      (edges b c).2.vel.y
        = JSNum.mul b.vel.y (JSNum.add (JSNum.fin (-1)) (JSNum.div b.cf.y (JSNum.fin 10))) ∧
      (edges b c).1 = true) := by
  refine ⟨fun h => ?_, fun h h0 => ?_, fun h => ?_, fun h h0 => ?_⟩ <;>
    unfold edges <;> simp only [] <;> split_ifs <;> simp_all [bounce]

/-- Witness for C5, the scenario of the spec: pos (150, 50), vel (10, 0), cf.x = 0.2 and
constraints (100, 200) give the return value true, pos.x = 100 and vel.x = -9.8. -/
theorem edges_axis_witness :
    bouncingBody.pos.x.gt (JSNum.fin 100) = true ∧
    (edges bouncingBody ⟨JSNum.fin 100, JSNum.fin 200⟩).1 = true ∧
    (edges bouncingBody ⟨JSNum.fin 100, JSNum.fin 200⟩).2.pos.x = JSNum.fin 100 ∧
    (edges bouncingBody ⟨JSNum.fin 100, JSNum.fin 200⟩).2.vel.x = JSNum.fin (-49 / 5) :=
  have hx : bouncingBody.pos.x.gt (JSNum.fin 100) = true := by
    simp [bouncingBody, JSNum.gt, JSNum.lt]
    norm_num
  have h := (edges_axis bouncingBody ⟨JSNum.fin 100, JSNum.fin 200⟩).1 hx
  ⟨hx, h.2.2, h.1, h.2.1.trans (by
    simp [bouncingBody, JSNum.mul, JSNum.add, JSNum.div]
    norm_num)⟩

/-- C6: `edges(c)` returns true exactly when, before the call, `pos.x > c.x` or
`pos.y > c.y` or `pos.x < 0` or `pos.y < 0`. -/
theorem edges_flag (b : Body) (c : Vector) :
    (edges b c).1 = true ↔
      (b.pos.x.gt c.x = true ∨ b.pos.y.gt c.y = true ∨
        b.pos.x.lt (JSNum.fin 0) = true ∨ b.pos.y.lt (JSNum.fin 0) = true) := by
  simp [edges, or_assoc]

/-- C7 fails as stated: with the constraint `c = (-1, 10)` the body at pos (5, 5) with
vel (1, 0) is put at x = -1 with vel.x = -1 by the first `edges(c)`, and at x = 0 with
vel.x = 1 by the second. -/
theorem edges_twice_counterexample :
    (edges strayBody ⟨JSNum.fin (-1), JSNum.fin 10⟩).2.pos.x = JSNum.fin (-1) ∧
    (edges strayBody ⟨JSNum.fin (-1), JSNum.fin 10⟩).2.vel.x = JSNum.fin (-1) ∧
    (edges (edges strayBody ⟨JSNum.fin (-1), JSNum.fin 10⟩).2
      ⟨JSNum.fin (-1), JSNum.fin 10⟩).2.pos.x = JSNum.fin 0 ∧
    (edges (edges strayBody ⟨JSNum.fin (-1), JSNum.fin 10⟩).2
      ⟨JSNum.fin (-1), JSNum.fin 10⟩).2.vel.x = JSNum.fin 1 ∧
    (edges (edges strayBody ⟨JSNum.fin (-1), JSNum.fin 10⟩).2
      ⟨JSNum.fin (-1), JSNum.fin 10⟩).2
      ≠ (edges strayBody ⟨JSNum.fin (-1), JSNum.fin 10⟩).2 := by
  have h1 : (edges strayBody ⟨JSNum.fin (-1), JSNum.fin 10⟩).2 =
      { strayBody with pos := ⟨JSNum.fin (-1), JSNum.fin 5⟩
                       vel := ⟨JSNum.fin (-1), JSNum.fin 0⟩ } := by
    simp [edges, strayBody, bounce, JSNum.gt, JSNum.lt, JSNum.mul, JSNum.add, JSNum.div]
    norm_num
  have h2 : (edges (edges strayBody ⟨JSNum.fin (-1), JSNum.fin 10⟩).2
      ⟨JSNum.fin (-1), JSNum.fin 10⟩).2 =
      { strayBody with pos := ⟨JSNum.fin 0, JSNum.fin 5⟩
                       vel := ⟨JSNum.fin 1, JSNum.fin 0⟩ } := by
    rw [h1]
    simp [edges, strayBody, bounce, JSNum.gt, JSNum.lt, JSNum.mul, JSNum.add, JSNum.div]
    norm_num
  rw [h2, h1]
  simp [strayBody]

/-- C7, amended: when neither `c.x` nor `c.y` is negative, calling `edges(c)` twice in
succession leaves the body in the state the first call left it in. -/
theorem edges_idempotent (b : Body) (c : Vector)
    (hx : c.x.lt (JSNum.fin 0) = false) (hy : c.y.lt (JSNum.fin 0) = false) :
    (edges (edges b c).2 c).2 = (edges b c).2 := by
  have h := edges_in_bounds (edges b c).2 c
    (by rw [edges_pos_x]; split_ifs <;> simp_all [JSNum.gt, JSNum.lt_self])
    (by rw [edges_pos_x]; split_ifs <;> simp_all [JSNum.gt, JSNum.lt_self])
    (by rw [edges_pos_y]; split_ifs <;> simp_all [JSNum.gt, JSNum.lt_self])
    (by rw [edges_pos_y]; split_ifs <;> simp_all [JSNum.gt, JSNum.lt_self])
  rw [h]

/-- Witness for the amended C7 on the bounce scenario, constraints (100, 200). -/
theorem edges_idempotent_witness :
    JSNum.lt (JSNum.fin 100) (JSNum.fin 0) = false ∧
    JSNum.lt (JSNum.fin 200) (JSNum.fin 0) = false ∧
    (edges (edges bouncingBody ⟨JSNum.fin 100, JSNum.fin 200⟩).2
      ⟨JSNum.fin 100, JSNum.fin 200⟩).2
      = (edges bouncingBody ⟨JSNum.fin 100, JSNum.fin 200⟩).2 :=
  ⟨by simp [JSNum.lt], by simp [JSNum.lt],
   edges_idempotent bouncingBody ⟨JSNum.fin 100, JSNum.fin 200⟩
     (by simp [JSNum.lt]) (by simp [JSNum.lt])⟩

/-- C8 fails as stated: the body at pos (5, NaN) (a body built at (5, 5) and updated
once with no gravity set) is left by `edges((-1, 10))` at pos (-1, NaN), where neither
`0 <= pos.x` nor `0 <= pos.y` holds. -/
theorem edges_confines_counterexample :
    driftedBody.pos = ⟨JSNum.fin 5, JSNum.nan⟩ ∧
    (edges driftedBody ⟨JSNum.fin (-1), JSNum.fin 10⟩).2.pos
      = ⟨JSNum.fin (-1), JSNum.nan⟩ ∧
    JSNum.le (JSNum.fin 0)
      (edges driftedBody ⟨JSNum.fin (-1), JSNum.fin 10⟩).2.pos.x = false ∧
    JSNum.le (JSNum.fin 0)
      (edges driftedBody ⟨JSNum.fin (-1), JSNum.fin 10⟩).2.pos.y = false := by
  have h0 : driftedBody.pos = ⟨JSNum.fin 5, JSNum.nan⟩ := by
    simp [driftedBody, Body.constructor, optVector, update, applyG, applyForce, toNumber,
      Vector.add, JSNum.add]
  have h1 : (edges driftedBody ⟨JSNum.fin (-1), JSNum.fin 10⟩).2.pos
      = ⟨JSNum.fin (-1), JSNum.nan⟩ := by
    have hx := edges_pos_x driftedBody ⟨JSNum.fin (-1), JSNum.fin 10⟩
    have hy := edges_pos_y driftedBody ⟨JSNum.fin (-1), JSNum.fin 10⟩
    rw [h0] at hx hy
    simp [JSNum.gt, JSNum.lt] at hx hy
    norm_num at hx
    cases hp : (edges driftedBody ⟨JSNum.fin (-1), JSNum.fin 10⟩).2.pos
    simp_all
  refine ⟨h0, h1, ?_, ?_⟩ <;> rw [h1] <;> simp [JSNum.le]

/-- C8, amended: when both components of the position are numbers other than NaN and the
constraints satisfy `0 <= c.x` and `0 <= c.y`, after `edges(c)` the position lies in the
rectangle: `0 <= pos.x <= c.x` and `0 <= pos.y <= c.y`. -/
theorem edges_confines (b : Body) (c : Vector)
    (hpx : b.pos.x ≠ JSNum.nan) (hpy : b.pos.y ≠ JSNum.nan)
    (hcx : JSNum.le (JSNum.fin 0) c.x = true) (hcy : JSNum.le (JSNum.fin 0) c.y = true) :
    JSNum.le (JSNum.fin 0) (edges b c).2.pos.x = true ∧
    JSNum.le (edges b c).2.pos.x c.x = true ∧
    JSNum.le (JSNum.fin 0) (edges b c).2.pos.y = true ∧
    JSNum.le (edges b c).2.pos.y c.y = true := by
  rw [edges_pos_x, edges_pos_y]
  exact ⟨(JSNum.clamp_bounds _ _ hpx hcx).1, (JSNum.clamp_bounds _ _ hpx hcx).2,
    (JSNum.clamp_bounds _ _ hpy hcy).1, (JSNum.clamp_bounds _ _ hpy hcy).2⟩

/-- Witness for the amended C8 on the bounce scenario, constraints (100, 200). -/
theorem edges_confines_witness :
    bouncingBody.pos.x ≠ JSNum.nan ∧ bouncingBody.pos.y ≠ JSNum.nan ∧
    JSNum.le (JSNum.fin 0) (JSNum.fin 100) = true ∧
    JSNum.le (JSNum.fin 0) (JSNum.fin 200) = true ∧
    JSNum.le (JSNum.fin 0)
      (edges bouncingBody ⟨JSNum.fin 100, JSNum.fin 200⟩).2.pos.x = true ∧
    JSNum.le (edges bouncingBody ⟨JSNum.fin 100, JSNum.fin 200⟩).2.pos.x
      (JSNum.fin 100) = true ∧
    JSNum.le (JSNum.fin 0)
      (edges bouncingBody ⟨JSNum.fin 100, JSNum.fin 200⟩).2.pos.y = true ∧
    JSNum.le (edges bouncingBody ⟨JSNum.fin 100, JSNum.fin 200⟩).2.pos.y
      (JSNum.fin 200) = true :=
  ⟨by simp [bouncingBody], by simp [bouncingBody], by simp [JSNum.le], by simp [JSNum.le],
   edges_confines bouncingBody ⟨JSNum.fin 100, JSNum.fin 200⟩
     (by simp [bouncingBody]) (by simp [bouncingBody])
     (by simp [JSNum.le]) (by simp [JSNum.le])⟩

/-! ## Shape validation: `setShape` -/

/-- C9 fails as stated: the array `[1, 2, 3]` is neither a string nor a sequence of
vertices, and `setShape` accepts it and stores it as the shape. -/
theorem setShape_counterexample :
    numberTriple.isString = false ∧
    isVertexSeq numberTriple = false ∧
    setShape strayBody numberTriple
      = (Except.ok (), { strayBody with shape := numberTriple }) := by
  simp [numberTriple, JSValue.isString, isVertexSeq, setShape, JSValue.isArray,
    JSValue.length]

/-- C9, amended: `setShape(s)` succeeds and stores `s` as the shape exactly when `s` is a
string or an array of at least 3 elements, whatever the elements are; in particular
every sequence of at least 3 vertices is accepted. For every other input it fails with
the invalid-shape error and leaves every field of the body as it was. -/
theorem setShape_accepts (b : Body) (s : JSValue) :
    ((s.isString = true ∨ (s.isArray = true ∧ 3 ≤ s.length)) →
      setShape b s = (Except.ok (), { b with shape := s })) ∧
    (¬ (s.isString = true ∨ (s.isArray = true ∧ 3 ≤ s.length)) →
      setShape b s = (Except.error "Invalid shape format", b)) ∧
    ((setShape b s).1 = Except.ok () ↔
      (s.isString = true ∨ (s.isArray = true ∧ 3 ≤ s.length))) ∧
    (isVertexSeq s = true → setShape b s = (Except.ok (), { b with shape := s })) := by
  have hok : (s.isString = true ∨ (s.isArray = true ∧ 3 ≤ s.length)) →
      setShape b s = (Except.ok (), { b with shape := s }) := by
    intro h
    unfold setShape
    split_ifs <;> simp_all
  have herr : ¬ (s.isString = true ∨ (s.isArray = true ∧ 3 ≤ s.length)) →
      setShape b s = (Except.error "Invalid shape format", b) := by
    intro h
    have h1 : s.isString = false := by
      cases hs : s.isString
      · rfl
      · exact absurd (Or.inl hs) h
    have h2 : (s.isArray && decide (s.length ≥ 3)) = false := by
      cases ha : s.isArray
      · simp
      · simp only [Bool.true_and, decide_eq_false_iff_not]
        exact fun hl => h (Or.inr ⟨ha, hl⟩)
    simp [setShape, h1, h2]
  refine ⟨hok, herr, ?_, ?_⟩
  · by_cases h : s.isString = true ∨ (s.isArray = true ∧ 3 ≤ s.length)
    · rw [hok h]
      exact ⟨fun _ => h, fun _ => rfl⟩
    · rw [herr h]
      exact ⟨fun hc => (by cases hc), fun hc => absurd hc h⟩
  · intro h
    apply hok
    cases s <;> simp_all [isVertexSeq, JSValue.isString, JSValue.isArray, JSValue.length]

/-- Witness for the amended C9: the triangle (0,0), (1,0), (0,1) is stored as the shape,
and the 2-vertex sequence (0,0), (1,0) fails and leaves the body as it was. -/
theorem setShape_accepts_witness :
    (triangle.isString = true ∨ (triangle.isArray = true ∧ 3 ≤ triangle.length)) ∧
    setShape strayBody triangle = (Except.ok (), { strayBody with shape := triangle }) ∧
    ¬ (twoVertices.isString = true ∨
      (twoVertices.isArray = true ∧ 3 ≤ twoVertices.length)) ∧
    setShape strayBody twoVertices = (Except.error "Invalid shape format", strayBody) :=
  ⟨Or.inr ⟨rfl, by simp [triangle, JSValue.length]⟩,
   (setShape_accepts strayBody triangle).1
     (Or.inr ⟨rfl, by simp [triangle, JSValue.length]⟩),
   by simp [twoVertices, JSValue.isString, JSValue.isArray, JSValue.length],
   (setShape_accepts strayBody twoVertices).2.1
     (by simp [twoVertices, JSValue.isString, JSValue.isArray, JSValue.length])⟩

/-! ## Gravity: `setG` -/

/-- C10 fails as stated: NaN is a provided, non-zero argument, and `setG(NaN)` sets the
gravity to 1 and returns 1, not NaN. -/
theorem setG_counterexample :
    setGExpected (some JSNum.nan) = JSNum.nan ∧
    (setG strayBody (some JSNum.nan)).1 = JSNum.fin 1 ∧
    (setG strayBody (some JSNum.nan)).2.gravity = some (JSNum.fin 1) ∧
    (setG strayBody (some JSNum.nan)).2.gravity ≠ some (setGExpected (some JSNum.nan)) := by
  simp [setGExpected, setG, orNum, JSNum.truthy]

/-- C10, amended: `setG(m)` sets the gravity to `m` when `m` is provided and is neither 0
nor NaN, and to 1 otherwise (absent, 0 or NaN); it changes no other field and returns
the new gravity. `setG(0)` behaves exactly like `setG()`, and `setG(5)` followed by
`setG(0)` leaves the gravity at 1. -/
theorem setG_sets_gravity (b : Body) (m : Option JSNum) :
    (setG b m).1 = (match m with
      | some v => if v = JSNum.fin 0 ∨ v = JSNum.nan then JSNum.fin 1 else v
      | none => JSNum.fin 1) ∧
    (setG b m).2 = { b with gravity := some (setG b m).1 } ∧
    setG b (some (JSNum.fin 0)) = setG b none ∧
    (setG b (some (JSNum.fin 5))).2.gravity = some (JSNum.fin 5) ∧
    (setG (setG b (some (JSNum.fin 5))).2 (some (JSNum.fin 0))).2.gravity
      = some (JSNum.fin 1) := by
  refine ⟨?_, rfl, ?_, ?_, ?_⟩
  · cases m with
    | none => simp [setG, orNum]
    | some v => cases v <;> simp [setG, orNum, JSNum.truthy]
  · simp [setG, orNum, JSNum.truthy]
  · simp [setG, orNum, JSNum.truthy]
  · simp [setG, orNum, JSNum.truthy]

/-! ## Gravity applied: `applyG` -/

/-- C11: `applyG` does not read its argument: from the same state, `applyG(m1)` and
`applyG(m2)` give the same return value and the same body, in which
`acc_after = acc_before + (0, gravity)` with `gravity` the field of the body itself, and
the value returned is that acceleration. -/
theorem applyG_ignores_argument (b : Body) (m1 m2 : JSNum) :
    applyG b m1 = applyG b m2 ∧
    (applyG b m1).2 = { b with acc := b.acc.add ⟨JSNum.fin 0, toNumber b.gravity⟩ } ∧
    (applyG b m1).1 = (applyG b m1).2.acc := by
  simp [applyG, applyForce]

/-! ## Force application: `applyForce` -/

/-- C14: `applyForce(f)` sets `acc` to `acc_before + f`, returns that acceleration, and
leaves `pos`, `vel`, `cf`, `gravity`, `shape`, `mass`, `w` and `h` as they were; it has a
result on every body and every force. -/
theorem applyForce_frame (b : Body) (f : Vector) :
    (applyForce b f).1 = b.acc.add f ∧
    (applyForce b f).2.acc = b.acc.add f ∧
    (applyForce b f).2.pos = b.pos ∧
    (applyForce b f).2.vel = b.vel ∧
    (applyForce b f).2.cf = b.cf ∧
    (applyForce b f).2.gravity = b.gravity ∧
    (applyForce b f).2.shape = b.shape ∧
    (applyForce b f).2.mass = b.mass ∧
    (applyForce b f).2.w = b.w ∧
    (applyForce b f).2.h = b.h := by
  simp [applyForce]

/-! ## The snapshot `cf` -/

/-- C15: `cf` is computed by the constructor only: after any sequence of calls of
`applyForce`, `applyG`, `setG`, `setShape`, `update`, `dist`, `collides` and `edges`,
on a newly constructed body or on any other, `cf` is what it was before the calls. -/
theorem cf_snapshot (opts : Option Opts) (ops : List Op) :
    (runOps ops (Body.constructor opts)).cf = (Body.constructor opts).cf ∧
    (∀ b : Body, (runOps ops b).cf = b.cf) ∧
    (∀ (b : Body) (op : Op), (runOp op b).cf = b.cf) :=
  ⟨runOps_cf ops _, fun b => runOps_cf ops b, fun b op => runOp_cf op b⟩

/-- C17: for every options bundle the constructor leaves `gravity` unset, so the divisor
`mass * gravity` of `cf` is NaN and both components of `cf` are NaN, never a finite
number, whatever `vel` and `mass` were given. -/
theorem constructor_cf_not_finite (opts : Option Opts) :
    (Body.constructor opts).gravity = none ∧
    JSNum.mul (Body.constructor opts).mass (toNumber (Body.constructor opts).gravity)
      = JSNum.nan ∧
    (Body.constructor opts).cf = ⟨JSNum.nan, JSNum.nan⟩ ∧
    (Body.constructor opts).cf.x.isFinite = false ∧
    (Body.constructor opts).cf.y.isFinite = false := by
  simp [Body.constructor, toNumber, JSNum.mul_nan, JSNum.div_nan, JSNum.isFinite]

/-! ## Distance and collision: `dist`, `collides` -/

/-- C12 fails as stated: for the body built at pos (Infinity, 0), and for the body at
pos (5, NaN) left by one `update()` with no gravity set, the distance of the body to
itself is NaN, `dist == 0` is false and `collides` is false. -/
theorem dist_self_counterexample :
    farBody.pos = ⟨JSNum.posInf, JSNum.fin 0⟩ ∧
    (dist farBody farBody).1 = ⟨JSNum.nan⟩ ∧
    (dist farBody farBody).1.isZero = false ∧
    (collides farBody farBody).1 = false ∧
    driftedBody.pos = ⟨JSNum.fin 5, JSNum.nan⟩ ∧
    (dist driftedBody driftedBody).1 = ⟨JSNum.nan⟩ ∧
    (dist driftedBody driftedBody).1.isZero = false ∧
    (collides driftedBody driftedBody).1 = false := by
  have h0 : farBody.pos = ⟨JSNum.posInf, JSNum.fin 0⟩ := by
    simp [farBody, Body.constructor, optVector]
  have h1 : driftedBody.pos = ⟨JSNum.fin 5, JSNum.nan⟩ := by
    simp [driftedBody, Body.constructor, optVector, update, applyG, applyForce, toNumber,
      Vector.add, JSNum.add]
  simp [collides, dist, Vector.mod, Vector.modSq, Root.isZero, h0, h1, JSNum.sub,
    JSNum.neg, JSNum.add, JSNum.mul]

/-- C12, amended: for every body whose position has finite coordinates, the distance of
the body to itself is 0 (`a.dist(a) == 0`) and `a.collides(a)` is true. -/
theorem dist_self (a : Body) (hx : a.pos.x.isFinite = true)
    (hy : a.pos.y.isFinite = true) :
    (dist a a).1 = ⟨JSNum.fin 0⟩ ∧
    (dist a a).1.isZero = true ∧
    (collides a a).1 = true := by
  have h := dist_same_point a hx hy
  simp [collides, h, Root.isZero]

/-- Witness for the amended C12 on the body at pos (5, 5). -/
theorem dist_self_witness :
    strayBody.pos.x.isFinite = true ∧ strayBody.pos.y.isFinite = true ∧
    (dist strayBody strayBody).1 = ⟨JSNum.fin 0⟩ ∧
    (dist strayBody strayBody).1.isZero = true ∧
    (collides strayBody strayBody).1 = true :=
  ⟨rfl, rfl, dist_self strayBody rfl rfl⟩

/-- C13 fails as stated: the bodies built at pos (Infinity, 0) with the default mass and
with mass 5 have the same position, and yet `dist == 0` is false and `collides` is false
for them. -/
theorem collides_counterexample :
    farBody.pos = farHeavyBody.pos ∧
    (dist farBody farHeavyBody).1.isZero = false ∧
    (collides farBody farHeavyBody).1 = false := by
  have h0 : farBody.pos = ⟨JSNum.posInf, JSNum.fin 0⟩ := by
    simp [farBody, Body.constructor, optVector]
  have h1 : farHeavyBody.pos = ⟨JSNum.posInf, JSNum.fin 0⟩ := by
    simp [farHeavyBody, Body.constructor, optVector]
  simp [collides, dist, Vector.mod, Vector.modSq, Root.isZero, h0, h1, JSNum.sub,
    JSNum.neg, JSNum.add, JSNum.mul]

/-- C13, amended: `a.collides(b)` is true exactly when `a.dist(b) == 0`; when the two
positions coincide and their coordinates are finite, `a.dist(b) == 0` and the bodies
collide; the two results depend on the two positions only, not on `w`, `h`, `shape` or
`mass`; and neither body is changed by `dist` or `collides`. That `a.dist(b) == 0`
holds for coinciding positions only is not part of the statement: the squares under the
root are rounded, and a small difference has the square 0. -/
theorem collides_iff_dist_zero (a b : Body) :
    ((collides a b).1 = true ↔ (dist a b).1.isZero = true) ∧
    (a.pos.x.isFinite = true → a.pos.y.isFinite = true → a.pos = b.pos →
      (dist a b).1.isZero = true ∧ (collides a b).1 = true) ∧
    (∀ a2 b2 : Body, a2.pos = a.pos → b2.pos = b.pos →
      (dist a2 b2).1 = (dist a b).1 ∧ (collides a2 b2).1 = (collides a b).1) ∧
    (dist a b).2 = (a, b) ∧
    (collides a b).2 = (a, b) := by
  refine ⟨by simp [collides], ?_, ?_, rfl, rfl⟩
  · intro hx hy hp
    have h := dist_same_point a hx hy
    simp only [collides, dist, ← hp] at h ⊢
    simp [h, Root.isZero]
  · intro a2 b2 ha hb
    simp [collides, dist, ha, hb]

/-- Witness for the amended C13: the body at pos (5, 5) and the bounce-scenario body
moved to pos (5, 5), which differ in velocity and `cf`, collide. -/
theorem collides_iff_dist_zero_witness :
    strayBody.pos.x.isFinite = true ∧ strayBody.pos.y.isFinite = true ∧
    strayBody.pos = ({ bouncingBody with pos := ⟨JSNum.fin 5, JSNum.fin 5⟩ } : Body).pos ∧
    (dist strayBody { bouncingBody with pos := ⟨JSNum.fin 5, JSNum.fin 5⟩ }).1.isZero
      = true ∧
    (collides strayBody { bouncingBody with pos := ⟨JSNum.fin 5, JSNum.fin 5⟩ }).1
      = true :=
  have h := collides_iff_dist_zero strayBody
    { bouncingBody with pos := ⟨JSNum.fin 5, JSNum.fin 5⟩ }
  ⟨rfl, rfl, rfl, (h.2.1 rfl rfl rfl).1, (h.2.1 rfl rfl rfl).2⟩

/-! ## Construction -/

/-- C16 fails as stated: in `new Body({shape: "", mass: 0, w: 0, h: 0})` the four fields
are present, and the body gets the shape "RECT", the mass 10 and `w = h = 100`, not the
values given. -/
theorem constructor_counterexample :
    falsyOpts.shape = some (JSValue.string "") ∧
    (Body.constructor (some falsyOpts)).shape = JSValue.string "RECT" ∧
    falsyOpts.mass = some (JSNum.fin 0) ∧
    (Body.constructor (some falsyOpts)).mass = JSNum.fin 10 ∧
    falsyOpts.w = some (JSNum.fin 0) ∧
    (Body.constructor (some falsyOpts)).w = JSNum.fin 100 ∧
    falsyOpts.h = some (JSNum.fin 0) ∧
    (Body.constructor (some falsyOpts)).h = JSNum.fin 100 := by
  simp [falsyOpts, Body.constructor, orShape, orNum, JSValue.truthy, JSNum.truthy]

/-- C16, amended: the constructor defaults each field on its own. With no options every
field takes its default: pos, vel, acc (0, 0), shape "RECT", mass 10, `w` and `h` 100.
With options, an absent `pos`, `vel` or `acc` becomes (0, 0) and a present one keeps the
value given; an absent `shape`, `mass`, `w` or `h` takes its default, a present one
keeps the value given when that value is truthy, and takes the default when it is falsy
(the empty string, 0, NaN); which other fields are present plays no part. -/
theorem constructor_defaults (o : Opts) :
    (Body.constructor none).pos = ⟨JSNum.fin 0, JSNum.fin 0⟩ ∧
    (Body.constructor none).vel = ⟨JSNum.fin 0, JSNum.fin 0⟩ ∧
    (Body.constructor none).acc = ⟨JSNum.fin 0, JSNum.fin 0⟩ ∧
    (Body.constructor none).shape = JSValue.string "RECT" ∧
    (Body.constructor none).mass = JSNum.fin 10 ∧
    (Body.constructor none).w = JSNum.fin 100 ∧
    (Body.constructor none).h = JSNum.fin 100 ∧
    (o.pos = none → (Body.constructor (some o)).pos = ⟨JSNum.fin 0, JSNum.fin 0⟩) ∧
    (∀ p, o.pos = some p → (Body.constructor (some o)).pos = p) ∧
    (o.vel = none → (Body.constructor (some o)).vel = ⟨JSNum.fin 0, JSNum.fin 0⟩) ∧
    (∀ p, o.vel = some p → (Body.constructor (some o)).vel = p) ∧
    (o.acc = none → (Body.constructor (some o)).acc = ⟨JSNum.fin 0, JSNum.fin 0⟩) ∧
    (∀ p, o.acc = some p → (Body.constructor (some o)).acc = p) ∧
    (o.shape = none → (Body.constructor (some o)).shape = JSValue.string "RECT") ∧
    (∀ v, o.shape = some v → v.truthy = true → (Body.constructor (some o)).shape = v) ∧
    (∀ v, o.shape = some v → v.truthy = false →
      (Body.constructor (some o)).shape = JSValue.string "RECT") ∧
    (o.mass = none → (Body.constructor (some o)).mass = JSNum.fin 10) ∧
    (∀ v, o.mass = some v → v.truthy = true → (Body.constructor (some o)).mass = v) ∧
    (∀ v, o.mass = some v → v.truthy = false →
      (Body.constructor (some o)).mass = JSNum.fin 10) ∧
    (o.w = none → (Body.constructor (some o)).w = JSNum.fin 100) ∧
    (∀ v, o.w = some v → v.truthy = true → (Body.constructor (some o)).w = v) ∧
    (∀ v, o.w = some v → v.truthy = false → (Body.constructor (some o)).w = JSNum.fin 100) ∧
    (o.h = none → (Body.constructor (some o)).h = JSNum.fin 100) ∧
    (∀ v, o.h = some v → v.truthy = true → (Body.constructor (some o)).h = v) ∧
    (∀ v, o.h = some v → v.truthy = false →
      (Body.constructor (some o)).h = JSNum.fin 100) := by
  refine ⟨rfl, rfl, rfl, rfl, rfl, rfl, rfl, ?_, ?_, ?_, ?_, ?_, ?_, ?_, ?_, ?_, ?_, ?_, ?_,
    ?_, ?_, ?_, ?_, ?_, ?_⟩ <;> intros <;>
    simp_all [Body.constructor, optVector, orShape, orNum]

/-- Witness for the amended C16 on the options `{pos: {x: 1, y: 2}, mass: 5}`: the
position and the mass are kept, the velocity and the shape take their defaults. -/
theorem constructor_defaults_witness :
    (Body.constructor (some someOpts)).pos = ⟨JSNum.fin 1, JSNum.fin 2⟩ ∧
    (Body.constructor (some someOpts)).mass = JSNum.fin 5 ∧
    (Body.constructor (some someOpts)).vel = ⟨JSNum.fin 0, JSNum.fin 0⟩ ∧
    (Body.constructor (some someOpts)).shape = JSValue.string "RECT" :=
  have h := constructor_defaults someOpts
  ⟨h.2.2.2.2.2.2.2.2.1 _ rfl,
   h.2.2.2.2.2.2.2.2.2.2.2.2.2.2.2.2.2.1 _ rfl (by simp [JSNum.truthy]),
   h.2.2.2.2.2.2.2.2.2.1 rfl,
   h.2.2.2.2.2.2.2.2.2.2.2.2.2.1 rfl⟩

/-! ## The two axes of `edges` -/

/-- C18: `edges(c)` treats the two axes independently. Two calls that agree on `pos.x`,
`vel.x`, `cf.x` and `c.x` give the same `pos.x` and `vel.x`, whatever the other fields
are, and likewise on the y axis; a body out of bounds on both axes is clamped and
bounced on both in the same call; and `acc`, `cf`, `gravity`, `shape`, `mass`, `w` and
`h` are left as they were. -/
theorem edges_axes_independent (b b2 : Body) (c c2 : Vector) :
    (b.pos.x = b2.pos.x → b.vel.x = b2.vel.x → b.cf.x = b2.cf.x → c.x = c2.x →
      (edges b c).2.pos.x = (edges b2 c2).2.pos.x ∧
      (edges b c).2.vel.x = (edges b2 c2).2.vel.x) ∧
    (b.pos.y = b2.pos.y → b.vel.y = b2.vel.y → b.cf.y = b2.cf.y → c.y = c2.y →
      (edges b c).2.pos.y = (edges b2 c2).2.pos.y ∧
      (edges b c).2.vel.y = (edges b2 c2).2.vel.y) ∧
    ((b.pos.x.gt c.x = true ∨ b.pos.x.lt (JSNum.fin 0) = true) →
      (b.pos.y.gt c.y = true ∨ b.pos.y.lt (JSNum.fin 0) = true) →
      (edges b c).2.pos.x = (if b.pos.x.gt c.x then c.x else JSNum.fin 0) ∧
      (edges b c).2.vel.x
        = JSNum.mul b.vel.x (JSNum.add (JSNum.fin (-1)) (JSNum.div b.cf.x (JSNum.fin 10))) ∧
      (edges b c).2.pos.y = (if b.pos.y.gt c.y then c.y else JSNum.fin 0) ∧
      (edges b c).2.vel.y
        = JSNum.mul b.vel.y (JSNum.add (JSNum.fin (-1)) (JSNum.div b.cf.y (JSNum.fin 10)))) ∧
    (edges b c).2.acc = b.acc ∧
    (edges b c).2.cf = b.cf ∧
    (edges b c).2.gravity = b.gravity ∧
    (edges b c).2.shape = b.shape ∧
    (edges b c).2.mass = b.mass ∧
    (edges b c).2.w = b.w ∧
    (edges b c).2.h = b.h := by
  refine ⟨?_, ?_, ?_, ?_, ?_, ?_, ?_, ?_, ?_, ?_⟩
  · intro h1 h2 h3 h4
    rw [edges_pos_x, edges_pos_x, edges_vel_x, edges_vel_x, h1, h2, h3, h4]
    exact ⟨rfl, rfl⟩
  · intro h1 h2 h3 h4
    rw [edges_pos_y, edges_pos_y, edges_vel_y, edges_vel_y, h1, h2, h3, h4]
    exact ⟨rfl, rfl⟩
  · intro hx hy
    rw [edges_pos_x, edges_pos_y, edges_vel_x, edges_vel_y]
    rcases hx with hx | hx <;> rcases hy with hy | hy <;>
      split_ifs <;> simp_all [bounce]
  all_goals
    unfold edges
    simp only []
    split_ifs <;> rfl

/-- Witness for C18: the body at pos (150, -5) with vel (10, 4) and cf.x = 0.2 is out
of the rectangle (100, 200) on both axes; one call puts it at pos (100, 0) with
vel (-9.8, -4). -/
theorem edges_axes_independent_witness :
    (cornerBody.pos.x.gt (JSNum.fin 100) = true ∨
      cornerBody.pos.x.lt (JSNum.fin 0) = true) ∧
    (cornerBody.pos.y.gt (JSNum.fin 200) = true ∨
      cornerBody.pos.y.lt (JSNum.fin 0) = true) ∧
    (edges cornerBody ⟨JSNum.fin 100, JSNum.fin 200⟩).2.pos = ⟨JSNum.fin 100, JSNum.fin 0⟩ ∧
    (edges cornerBody ⟨JSNum.fin 100, JSNum.fin 200⟩).2.vel
      = ⟨JSNum.fin (-49 / 5), JSNum.fin (-4)⟩ :=
  have hx : cornerBody.pos.x.gt (JSNum.fin 100) = true ∨
      cornerBody.pos.x.lt (JSNum.fin 0) = true := by
    left
    simp [cornerBody, JSNum.gt, JSNum.lt]
    norm_num
  have hy : cornerBody.pos.y.gt (JSNum.fin 200) = true ∨
      cornerBody.pos.y.lt (JSNum.fin 0) = true := by
    right
    simp [cornerBody, JSNum.gt, JSNum.lt]
  have h := (edges_axes_independent cornerBody cornerBody ⟨JSNum.fin 100, JSNum.fin 200⟩
    ⟨JSNum.fin 100, JSNum.fin 200⟩).2.2.1 hx hy
  ⟨hx, hy, by
    cases hp : (edges cornerBody ⟨JSNum.fin 100, JSNum.fin 200⟩).2.pos
    rw [hp] at h
    simp [cornerBody, JSNum.gt, JSNum.lt] at h
    norm_num at h
    simp [h.1, h.2.2.1], by
    cases hv : (edges cornerBody ⟨JSNum.fin 100, JSNum.fin 200⟩).2.vel
    rw [hv] at h
    simp [cornerBody, JSNum.mul, JSNum.add, JSNum.div] at h
    norm_num at h
    simp [h.2.1, h.2.2.2]
    norm_num⟩

/-- C19: when `0 <= pos.x <= c.x` and `0 <= pos.y <= c.y`, boundary values included,
`edges(c)` returns false and leaves every field of the body, the velocity among them, as
it was. -/
theorem edges_inside_unchanged (b : Body) (c : Vector)
    (h1 : JSNum.le (JSNum.fin 0) b.pos.x = true) (h2 : JSNum.le b.pos.x c.x = true)
    (h3 : JSNum.le (JSNum.fin 0) b.pos.y = true) (h4 : JSNum.le b.pos.y c.y = true) :
    (edges b c).1 = false ∧ (edges b c).2 = b := by
  have h := edges_in_bounds b c (JSNum.lt_false_of_le _ _ h2) (JSNum.lt_false_of_le _ _ h1)
    (JSNum.lt_false_of_le _ _ h4) (JSNum.lt_false_of_le _ _ h3)
  rw [h]
  exact ⟨rfl, rfl⟩

/-- Witness for C19: the body at pos (100, 0), on the boundary of the rectangle
(100, 200) on both axes, is left as it is. -/
theorem edges_inside_unchanged_witness :
    JSNum.le (JSNum.fin 0) borderBody.pos.x = true ∧
    JSNum.le borderBody.pos.x (JSNum.fin 100) = true ∧
    JSNum.le (JSNum.fin 0) borderBody.pos.y = true ∧
    JSNum.le borderBody.pos.y (JSNum.fin 200) = true ∧
    (edges borderBody ⟨JSNum.fin 100, JSNum.fin 200⟩).1 = false ∧
    (edges borderBody ⟨JSNum.fin 100, JSNum.fin 200⟩).2 = borderBody :=
  have h1 : JSNum.le (JSNum.fin 0) borderBody.pos.x = true := by
    simp [borderBody, JSNum.le]
  have h2 : JSNum.le borderBody.pos.x (JSNum.fin 100) = true := by
    simp [borderBody, JSNum.le]
  have h3 : JSNum.le (JSNum.fin 0) borderBody.pos.y = true := by
    simp [borderBody, JSNum.le]
  have h4 : JSNum.le borderBody.pos.y (JSNum.fin 200) = true := by
    simp [borderBody, JSNum.le]
  ⟨h1, h2, h3, h4, edges_inside_unchanged borderBody ⟨JSNum.fin 100, JSNum.fin 200⟩
    h1 h2 h3 h4⟩

/-! ## `n` ticks under gravity -/

/-- C20 fails as stated: on the body `new Body()` after `setG(Infinity)`, with
`acc = (0, 0)`, and `n = 0`, no call is made and vel and pos are still (0, 0), while the
closed form gives `vel0 + (0, 0 * Infinity) = (0, NaN)` and a position of (0, NaN). -/
theorem update_closed_form_counterexample :
    weightyBody.gravity = some JSNum.posInf ∧
    weightyBody.acc = ⟨JSNum.fin 0, JSNum.fin 0⟩ ∧
    (updateN 0 weightyBody).vel = ⟨JSNum.fin 0, JSNum.fin 0⟩ ∧
    closedFormVel weightyBody.vel JSNum.posInf 0 = ⟨JSNum.fin 0, JSNum.nan⟩ ∧
    (updateN 0 weightyBody).vel ≠ closedFormVel weightyBody.vel JSNum.posInf 0 ∧
    (updateN 0 weightyBody).pos = ⟨JSNum.fin 0, JSNum.fin 0⟩ ∧
    closedFormPos weightyBody.pos weightyBody.vel JSNum.posInf 0
      = ⟨JSNum.fin 0, JSNum.nan⟩ ∧
    (updateN 0 weightyBody).pos
      ≠ closedFormPos weightyBody.pos weightyBody.vel JSNum.posInf 0 := by
  simp [weightyBody, setG, orNum, JSNum.truthy, Body.constructor, updateN, closedFormVel,
    closedFormPos, Vector.add, JSNum.add, JSNum.mul, JSNum.div, JSNum.infTimes]

/-- C20, amended: for a body with gravity set to `g` and `acc = (0, 0)`, and every `n`,
`n` consecutive calls of `update()` realise `n` steps of semi-implicit Euler under the
constant gravity `g`: at each tick `vel` becomes `vel + (0, g)`, `pos` becomes `pos`
plus that new `vel`, and `acc` is (0, 0) again; the sums are taken tick by tick, in this
order. The closed form is not part of the statement. -/
theorem update_realises_euler (b : Body) (g : JSNum) (hg : b.gravity = some g)
    (hacc : b.acc = ⟨JSNum.fin 0, JSNum.fin 0⟩) (n : Nat) :
    ((updateN n b).pos, (updateN n b).vel) = (eulerStep g)^[n] (b.pos, b.vel) ∧
    (updateN n b).acc = ⟨JSNum.fin 0, JSNum.fin 0⟩ ∧
    (updateN n b).gravity = some g ∧
    (updateN (n + 1) b).vel = (updateN n b).vel.add ⟨JSNum.fin 0, g⟩ ∧
    (updateN (n + 1) b).pos = (updateN n b).pos.add (updateN (n + 1) b).vel := by
  have hinv := updateN_acc_gravity b g hg hacc
  have hstep : ∀ k, (updateN (k + 1) b).vel = (updateN k b).vel.add ⟨JSNum.fin 0, g⟩ ∧
      (updateN (k + 1) b).pos = (updateN k b).pos.add (updateN (k + 1) b).vel := by
    intro k
    have h := update_tick (updateN k b) g (hinv k).2 (hinv k).1
    have hu : updateN (k + 1) b = (update (updateN k b)).2 := rfl
    rw [hu, h.1, h.2.1]
    exact ⟨rfl, rfl⟩
  refine ⟨?_, (hinv n).1, (hinv n).2, (hstep n).1, (hstep n).2⟩
  induction n with
  | zero => rfl
  | succ k ih =>
    rw [Function.iterate_succ_apply', ← ih, (hstep k).2, (hstep k).1]
    rfl

/-- Witness for the amended C20: the body built with pos (1, 2), vel (3, 4), no
acceleration, and then `setG(7)`, is after 3 calls of `update()` at vel (3, 25) and
pos (10, 56). -/
theorem update_realises_euler_witness :
    thrownBody.gravity = some (JSNum.fin 7) ∧
    thrownBody.acc = ⟨JSNum.fin 0, JSNum.fin 0⟩ ∧
    (updateN 3 thrownBody).vel = ⟨JSNum.fin 3, JSNum.fin 25⟩ ∧
    (updateN 3 thrownBody).pos = ⟨JSNum.fin 10, JSNum.fin 56⟩ ∧
    (updateN 3 thrownBody).acc = ⟨JSNum.fin 0, JSNum.fin 0⟩ :=
  have hg : thrownBody.gravity = some (JSNum.fin 7) := by
    simp [thrownBody, setG, orNum, JSNum.truthy]
  have hacc : thrownBody.acc = ⟨JSNum.fin 0, JSNum.fin 0⟩ := by
    simp [thrownBody, setG, Body.constructor, optVector]
  have hvel : thrownBody.vel = ⟨JSNum.fin 3, JSNum.fin 4⟩ := by
    simp [thrownBody, setG, Body.constructor, optVector]
  have hpos : thrownBody.pos = ⟨JSNum.fin 1, JSNum.fin 2⟩ := by
    simp [thrownBody, setG, Body.constructor, optVector]
  have h := update_realises_euler thrownBody (JSNum.fin 7) hg hacc 3
  have he : (eulerStep (JSNum.fin 7))^[3] (thrownBody.pos, thrownBody.vel)
      = (⟨JSNum.fin 10, JSNum.fin 56⟩, ⟨JSNum.fin 3, JSNum.fin 25⟩) := by
    rw [hvel, hpos]
    simp [eulerStep, Vector.add, JSNum.add]
    norm_num
  ⟨hg, hacc, (congrArg Prod.snd (h.1.trans he) : _), (congrArg Prod.fst (h.1.trans he) : _),
    h.2.1⟩

end MyLilCat
